import Mathlib

/-!
Verification development for the NSE historical-derivatives scraper
(`nse_data_scraper.py`).  The definitions below are a shallow embedding of
`NSEDataScraper`'s methods: pure computations are translated directly, and
interactions with the outside world (the browser engine, the HTTP endpoints,
the filesystem) are made explicit as input values and as lists of observable
events, so that every method becomes a total function.
-/

/-! ## Calendar arithmetic (Python `datetime` + `timedelta`, proleptic Gregorian) -/

/-- Month abbreviations recognised by `strptime`'s `%b` in the C locale,
lower-cased (the matcher is case-insensitive). -/
def monthAbbrevs : List String :=
  ["jan", "feb", "mar", "apr", "may", "jun", "jul", "aug", "sep", "oct", "nov", "dec"]

/-- Gregorian leap-year rule, as used by `datetime`. -/
def isLeapYear (y : Nat) : Bool :=
  (y % 4 == 0 && y % 100 != 0) || y % 400 == 0

/-- Number of days in month `m` of year `y` (months are 1-based). -/
def daysInMonth (y m : Nat) : Nat :=
  if m = 2 then (if isLeapYear y then 29 else 28)
  else if m = 4 ∨ m = 6 ∨ m = 9 ∨ m = 11 then 30
  else 31

/-- Julian day number of the Gregorian date `(y, m, d)` (valid for `y ≥ 1`).
This is the day-number arithmetic underlying `datetime` ± `timedelta(days)`. -/
def toDays (y m d : Nat) : Nat :=
  let a := (14 - m) / 12
  let y' := y + 4800 - a
  let m' := m + 12 * a - 3
  d + (153 * m' + 2) / 5 + 365 * y' + y' / 4 - y' / 100 + y' / 400 - 32045

/-- Gregorian date `(y, m, d)` of a Julian day number (valid on the
`datetime`-representable range, years 1–9999). -/
def ofDays (jdn : Nat) : Nat × Nat × Nat :=
  let a := jdn + 32044
  let b := (4 * a + 3) / 146097
  let c := a - 146097 * b / 4
  let d1 := (4 * c + 3) / 1461
  let e := c - 1461 * d1 / 4
  let m1 := (5 * e + 2) / 153
  let day := e - (153 * m1 + 2) / 5 + 1
  let month := m1 + 3 - 12 * (m1 / 10)
  let year := 100 * b + d1 - 4800 + m1 / 10
  (year, month, day)

/-- Smallest representable `datetime` day (0001-01-01): arithmetic that lands
below it raises `OverflowError` in Python. -/
def minOrdinal : Nat := toDays 1 1 1

/-- Largest representable `datetime` day (9999-12-31). -/
def maxOrdinal : Nat := toDays 9999 12 31

/-- Zero-padded two-digit rendering, as `strftime` `%d` / `%m` produce. -/
def pad2 (n : Nat) : String :=
  if n < 10 then "0" ++ toString n else toString n

/-- Four-digit year rendering for `strftime` `%Y`. -/
def pad4 (n : Nat) : String :=
  if n < 10 then "000" ++ toString n
  else if n < 100 then "00" ++ toString n
  else if n < 1000 then "0" ++ toString n
  else toString n

/-- Rendering of a date as `strftime("%d-%m-%Y")`, the format the fetch
endpoint requires for the `from` / `to` parameters. -/
def formatDMY : Nat × Nat × Nat → String
  | (y, m, d) => pad2 d ++ "-" ++ pad2 m ++ "-" ++ pad4 y

/-- ASCII lower-casing of a single character (month abbreviations are ASCII). -/
def lowerChar (c : Char) : Char :=
  if 65 ≤ c.toNat ∧ c.toNat ≤ 90 then Char.ofNat (c.toNat + 32) else c

/-- Numeric value of a digit string, as Python `int()` computes it. -/
def digitsToNat (cs : List Char) : Nat :=
  cs.foldl (fun a c => 10 * a + (c.toNat - 48)) 0

/-- Splitting a character list at every dash, mirroring how
`strptime(s, "%d-%b-%Y")` cuts the input at the literal dashes. -/
def splitDash : List Char → List (List Char)
  | [] => [[]]
  | c :: rest =>
    let r := splitDash rest
    if c = '-' then [] :: r
    else
      match r with
      | [] => [[c]]
      | g :: gs => (c :: g) :: gs

/-- Index (1-based) of a month abbreviation in `monthAbbrevs`. -/
def monthIndexFrom : List String → String → Nat → Option Nat
  | [], _, _ => none
  | a :: rest, s, i => if a = s then some i else monthIndexFrom rest s (i + 1)

/-- Month number for the lower-cased `%b` field, if it is a known name. -/
def monthIndex (s : String) : Option Nat :=
  monthIndexFrom monthAbbrevs s 1

/-- The `%d` day field: one or two ASCII digits with value 1–31, or a space
followed by a digit 1–9 (the exact alternation `strptime` compiles for `%d`). -/
def dayFieldValue (cs : List Char) : Option Nat :=
  match cs with
  | [c] => if c.isDigit && digitsToNat [c] ≥ 1 then some (digitsToNat [c]) else none
  | [c1, c2] =>
    if c1.isDigit && c2.isDigit && 1 ≤ digitsToNat [c1, c2] && digitsToNat [c1, c2] ≤ 31 then
      some (digitsToNat [c1, c2])
    else if c1 = ' ' && c2.isDigit && digitsToNat [c2] ≥ 1 then some (digitsToNat [c2])
    else none
  | _ => none

/-- Parsing of `datetime.strptime(s, "%d-%b-%Y")` followed by the `datetime`
constructor's own validation (month length, year ≥ 1).  Returns the parsed
`(year, month, day)` or `none` where Python raises `ValueError`. -/
def parseExpiry (s : String) : Option (Nat × Nat × Nat) :=
  match splitDash s.data with
  | [ds, ms, ys] =>
    match dayFieldValue ds, monthIndex (String.mk (ms.map lowerChar)) with
    | some d, some m =>
      if ys.all Char.isDigit && ys.length == 4 then
        let y := digitsToNat ys
        if 1 ≤ y ∧ d ≤ daysInMonth y m then some (y, m, d) else none
      else none
    | _, _ => none
  | _ => none

/-- Embedding of `NSEDataScraper.calculate_date_range`: parse the expiry in
`DD-MMM-YYYY` form, subtract 60 days for the start, add 1 day for the end,
re-render both as `DD-MM-YYYY`, and also return the expiry's year.  Any
failure inside the `try` block — a parse error, or day arithmetic leaving the
`datetime`-representable range (`OverflowError`) — is caught and turned into
the `(None, None, None)` sentinel, modelled here as `none`. -/
def calculate_date_range (expiry_date_str : String) : Option (String × String × Nat) :=
  match parseExpiry expiry_date_str with
  | none => none
  | some (y, m, d) =>
    let n := toDays y m d
    if n < minOrdinal + 60 then none
    else if maxOrdinal < n + 1 then none
    else some (formatDMY (ofDays (n - 60)), formatDMY (ofDays (n + 1)), y)

/-! ## Path construction (`os.path.join`, `str.replace`, the CSV filename) -/

/-- Python `s.startswith("/")`: the first character is a slash. -/
def startsWithSlash (s : String) : Bool :=
  s.data.head? == some '/'

/-- Python `s.endswith("/")`: the last character is a slash. -/
def endsWithSlash (s : String) : Bool :=
  s.data.getLast? == some '/'

/-- POSIX `os.path.join` for two components. -/
def pathJoin (a b : String) : String :=
  if startsWithSlash b then b
  else if a == "" || endsWithSlash a then a ++ b
  else a ++ "/" ++ b

/-- Python `s.replace("-", "_")` (single-character replacement is a map). -/
def replaceDashUnderscore (s : String) : String :=
  String.mk (s.data.map (fun c => if c == '-' then '_' else c))

/-- The filename built in `download_csv_data` (identically in both the CSV
branch and the JSON branch):
`{symbol}_{instrument}_{expiry}_{start}_to_{end}.csv` with dashes replaced by
underscores in the three date components. -/
def csv_filename (symbol instrument expiry_date start_date end_date : String) : String :=
  symbol ++ "_" ++ instrument ++ "_" ++ replaceDashUnderscore expiry_date ++ "_" ++
    replaceDashUnderscore start_date ++ "_to_" ++ replaceDashUnderscore end_date ++ ".csv"

/-- The directory `os.path.join(base_dir, str(year), symbol, instrument)`. -/
def folderPath (base_dir : String) (year : Nat) (symbol instrument : String) : String :=
  pathJoin (pathJoin (pathJoin base_dir (toString year)) symbol) instrument

/-- Full path of the stored file for one fetch target. -/
def build_filepath (base_dir : String) (year : Nat)
    (symbol instrument expiry_date start_date end_date : String) : String :=
  pathJoin (folderPath base_dir year symbol instrument)
    (csv_filename symbol instrument expiry_date start_date end_date)

/-! ## JSON values and the expiry-list endpoint (`get_expiry_dates`) -/

/-- JSON values, as returned by `response.json()`.  Numbers are modelled as
integers (the endpoint's record fields in scope are strings and integers). -/
inductive JsonVal where
  | str (s : String)
  | num (n : Int)
  | boolean (b : Bool)
  | null
  | arr (xs : List JsonVal)
  | obj (kvs : List (String × JsonVal))

/-- Dictionary lookup: `k in d` followed by `d[k]` (keys are unique in a
Python dict, so first match is the value). -/
def jlookup (k : String) : List (String × JsonVal) → Option JsonVal
  | [] => none
  | (k', v) :: rest => if k' = k then some v else jlookup k rest

/-- Python truthiness of a JSON value, as used by `if expiry_dates:`. -/
def truthy : JsonVal → Bool
  | .str s => !(s == "")
  | .num n => !(n == 0)
  | .boolean b => b
  | .null => false
  | .arr xs => !xs.isEmpty
  | .obj kvs => !kvs.isEmpty

/-- The `if 'expiryDt' in data / elif 'expiresDts' / elif 'expiryDates'`
chain of `get_expiry_dates`: the value under the first present key, in that
fixed priority order. -/
def firstExpiryKey (data : List (String × JsonVal)) : Option JsonVal :=
  match jlookup "expiryDt" data with
  | some v => some v
  | none =>
    match jlookup "expiresDts" data with
    | some v => some v
    | none => jlookup "expiryDates" data

/-- Outcome of the GET against the expiry-list endpoint.  `failure` covers
every exception inside the `try` block: connection errors, timeouts, a
non-2xx status (`raise_for_status`), and a body `response.json()` cannot
decode.  `payload` is the decoded JSON object. -/
inductive ExpiryResponse where
  | failure
  | payload (data : List (String × JsonVal))

/-- Embedding of `NSEDataScraper.get_expiry_dates`: pick the value under the
first known key; a falsy value (`None` from no key, or an empty list) and any
request failure both give the empty list, and no exception escapes. -/
def get_expiry_dates (resp : ExpiryResponse) : JsonVal :=
  match resp with
  | .failure => .arr []
  | .payload data =>
    match firstExpiryKey data with
    | some v => if truthy v then v else .arr []
    | none => .arr []

/-! ## The historical-data endpoint (`download_csv_data`) -/

/-- Python `s.startswith(pat)` on character lists. -/
def leadsWith : List Char → List Char → Bool
  | [], _ => true
  | _ :: _, [] => false
  | p :: ps, c :: cs => p == c && leadsWith ps cs

/-- Python `s.startswith(pat)` for strings. -/
def strStarts (s pat : String) : Bool :=
  leadsWith pat.data s.data

/-- One HTTP response from the historical-data endpoint.  `statusOk` is
whether `raise_for_status()` passes (a 2xx status); `contentType` and
`contentDisposition` are the two headers consulted (with the `''` default the
code supplies for a missing header); `bodyText` is `response.text`; and
`bodyJson` is the result of `response.json()` — `none` when the body is not
valid JSON and the call raises. -/
structure FetchResponse where
  statusOk : Bool
  contentType : String
  contentDisposition : String
  bodyText : String
  bodyJson : Option JsonVal

/-- Outcome of the GET itself: a transport-level error (timeout, connection
failure) raises before any response exists. -/
inductive FetchOutcome where
  | transportError
  | response (r : FetchResponse)

/-- A keyed record, when a JSON value is a dict. -/
def toRecord : JsonVal → Option (List (String × JsonVal))
  | .obj kvs => some kvs
  | _ => none

/-- All elements of `data['data']` as keyed records.  The endpoint contract
for this URL is `{data: [ {..fields..}, ... ]}`; payloads whose list elements
are not keyed records are outside it and are modelled as the JSON-parsing
failure path. -/
def toRecords : List JsonVal → Option (List (List (String × JsonVal)))
  | [] => some []
  | v :: vs =>
    match toRecord v, toRecords vs with
    | some r, some rs => some (r :: rs)
    | _, _ => none

/-- Keys of one record, in order. -/
def recordKeys (r : List (String × JsonVal)) : List String :=
  r.map Prod.fst

/-- Appending a key to the column list if it is not already present. -/
def insertKey (acc : List String) (k : String) : List String :=
  if acc.contains k then acc else acc ++ [k]

/-- Union of the records' keys in first-appearance order: the column set
`pd.DataFrame(list_of_dicts)` produces. -/
def unionKeys (records : List (List (String × JsonVal))) : List String :=
  records.foldl (fun acc r => (recordKeys r).foldl insertKey acc) []

/-- The tabular form built from a record sequence: named columns and one row
per record, rows in input order (the shape of the `pandas` frame). -/
structure Frame where
  columns : List String
  rows : List (List (String × JsonVal))

/-- Embedding of `pd.DataFrame(data['data'])`. -/
def makeFrame (records : List (List (String × JsonVal))) : Frame :=
  ⟨unionKeys records, records⟩

/-- Rendering of one CSV cell by `df.to_csv`: a missing key is `NaN` and
prints as the empty field; strings and integers print plainly.  (Delimiter
quoting and nested values do not occur in the endpoint's records and are not
modelled.) -/
def cellText : Option JsonVal → String
  | none => ""
  | some (.str s) => s
  | some (.num n) => toString n
  | some (.boolean b) => cond b "True" "False"
  | some .null => ""
  | some (.arr _) => ""
  | some (.obj _) => ""

/-- One data row of the CSV: the row's cells in column order. -/
def renderRow (cols : List String) (r : List (String × JsonVal)) : String :=
  String.intercalate "," (cols.map (fun c => cellText (jlookup c r)))

/-- Serialisation `df.to_csv(filepath, index=False)`: a header line then one
line per row, each terminated by a newline. -/
def frameToCsv (f : Frame) : String :=
  String.intercalate "," f.columns ++ "\n" ++
    String.join (f.rows.map (fun r => renderRow f.columns r ++ "\n"))

/-- Result of one `download_csv_data` call: the returned value (the file path
on success, the `None` sentinel on failure) and the list of file writes the
call performed, in order, as `(path, content)` pairs. -/
structure DownloadResult where
  ret : Option String
  writes : List (String × String)

/-- Embedding of `NSEDataScraper.download_csv_data`.  In order: a transport
error or bad status fails with nothing written; a `text/csv` content-type or
`attachment` content-disposition stores `response.text` verbatim and returns
the path; otherwise the body is decoded as JSON and, when a `data` key holds
a non-empty list of records, the converted table is written — after which the
code still evaluates `df['FH_TIMESTAMP'].min()` for a log line, so when no
record carries that column a `KeyError` is caught and `None` is returned even
though the file was already written.  Every other shape fails with nothing
written. -/
def download_csv_data (out : FetchOutcome) (expiry_date start_date end_date : String)
    (year : Nat) (instrument symbol base_dir : String) : DownloadResult :=
  match out with
  | .transportError => ⟨none, []⟩
  | .response r =>
    if r.statusOk then
      if strStarts r.contentType "text/csv" || strStarts r.contentDisposition "attachment" then
        let filepath := build_filepath base_dir year symbol instrument expiry_date start_date end_date
        ⟨some filepath, [(filepath, r.bodyText)]⟩
      else
        match r.bodyJson with
        | some (JsonVal.obj kvs) =>
          match jlookup "data" kvs with
          | some (JsonVal.arr rawRecords) =>
            if rawRecords.isEmpty then ⟨none, []⟩
            else
              match toRecords rawRecords with
              | some records =>
                let df := makeFrame records
                let filepath :=
                  build_filepath base_dir year symbol instrument expiry_date start_date end_date
                if df.columns.contains "FH_TIMESTAMP" then
                  ⟨some filepath, [(filepath, frameToCsv df)]⟩
                else
                  ⟨none, [(filepath, frameToCsv df)]⟩
              | none => ⟨none, []⟩
          | _ => ⟨none, []⟩
        | _ => ⟨none, []⟩
    else ⟨none, []⟩

/-! ## Session bootstrap (`initialize_session`) -/

/-- What the browser engine did during the bootstrap navigation: either some
step inside the `try` block raised (a navigation error, or the
`WebDriverWait` readiness timeout), or the pages loaded and
`driver.get_cookies()` produced this list of `(name, value)` pairs. -/
inductive BrowserOutcome where
  | navError
  | ok (cookies : List (String × String))

/-- Embedding of `NSEDataScraper.initialize_session`: on a navigation error
the exception is caught and `False` is returned with no cookies transferred;
otherwise every browser cookie is copied into the HTTP session, the static
browser-mimicking headers are installed, and `True` is returned — the cookie
list is not inspected, so an empty jar still reports success. -/
def initialize_session (outcome : BrowserOutcome) : Bool × List (String × String) :=
  match outcome with
  | .navError => (false, [])
  | .ok cookies => (true, cookies)

/-! ## Year orchestration (`process_year`) -/

/-- Observable events of one `process_year` run, in order: the GET against
the historical-data endpoint for one expiry, a file written to disk, and the
fixed `time.sleep(2)` pause at the bottom of the loop. -/
inductive Event where
  | fetchData (expiry : String)
  | fileWrite (path : String) (content : String)
  | sleep (secs : Nat)

/-- Whether an event is a file write. -/
def isFileWrite : Event → Bool
  | .fileWrite _ _ => true
  | _ => false

/-- Whether an event is a sleep. -/
def isSleepEvent : Event → Bool
  | .sleep _ => true
  | _ => false

/-- The body of `process_year`'s loop for one expiry: compute the date window
— on failure `continue` skips the rest of the iteration, including the sleep —
then fetch and store, count the iteration as a success exactly when a file
path came back, and sleep 2 seconds. -/
def processExpiry (resp : FetchOutcome) (expiry_date symbol instrument base_dir : String) :
    Bool × List Event :=
  match calculate_date_range expiry_date with
  | none => (false, [])
  | some (start_date, end_date, exp_year) =>
    let r := download_csv_data resp expiry_date start_date end_date exp_year instrument symbol base_dir
    (r.ret.isSome,
      Event.fetchData expiry_date ::
        (r.writes.map (fun w => Event.fileWrite w.1 w.2) ++ [Event.sleep 2]))

/-- The `expiry_dates[:1]` truncation applied in testing mode. -/
def usedExpiries (expiries : List String) (test_single : Bool) : List String :=
  if test_single then expiries.take 1 else expiries

/-- Concatenation of the per-iteration event lists. -/
def concatAll : List (List Event) → List Event
  | [] => []
  | l :: ls => l ++ concatAll ls

/-- Embedding of `NSEDataScraper.process_year`.  The browser outcome, the
already-resolved expiry list (the endpoint contract: a list of date strings),
and the per-expiry fetch responses are the run's inputs; the result is the
returned boolean together with the run's event trace.  Steps: initialise the
session (abort with `False` on failure), abort with `False` on an empty
expiry list, optionally truncate to the first expiry, then run the loop body
per expiry and return whether the success count is positive. -/
def process_year (browser : BrowserOutcome) (expiries : List String)
    (responses : String → FetchOutcome) (symbol instrument : String)
    (test_single : Bool) : Bool × List Event :=
  if (initialize_session browser).fst then
    if expiries.isEmpty then (false, [])
    else
      let todo := usedExpiries expiries test_single
      let success_count :=
        todo.countP (fun e => (processExpiry (responses e) e symbol instrument "nse_data").fst)
      (decide (0 < success_count),
        concatAll (todo.map (fun e => (processExpiry (responses e) e symbol instrument "nse_data").snd)))
  else (false, [])

/-- A canned CSV response from the historical-data endpoint, used by the
concrete end-to-end instances below. -/
def csvOkResponse : FetchResponse :=
  ⟨true, "text/csv; charset=UTF-8", "", "FH_TIMESTAMP,FH_CLOSE\n01-Jan-2024,100\n", none⟩

/-- The fetch responses of the three-expiry end-to-end instance: the February
expiry fails at the fetch stage with a transport error, the other two receive
CSV payloads. -/
def demoResponses : String → FetchOutcome :=
  fun e => if e == "26-Feb-2024" then .transportError else .response csvOkResponse

/-- A JSON response whose single record has no `FH_TIMESTAMP` key: the
conversion and the file write succeed, and then the `df['FH_TIMESTAMP']`
log-line access raises `KeyError`. -/
def jsonNoFHResponse : FetchResponse :=
  ⟨true, "application/json", "", "raw json body",
    some (JsonVal.obj [("data", JsonVal.arr [JsonVal.obj [("x", JsonVal.num 1)]])])⟩

/-! ## Helper lemmas -/

/-- Strings with equal character data are equal. -/
theorem strOfDataEq (a b : String) (h : a.data = b.data) : a = b := by
  cases a; cases b; exact congrArg String.mk h

/-- Appending a nonempty string on the right keeps a string nonempty. -/
theorem str_append_ne_right (a b : String) (h : b ≠ "") : a ++ b ≠ "" := by
  intro hab
  apply h
  apply strOfDataEq
  have := congrArg String.data hab
  rw [String.data_append] at this
  rcases List.append_eq_nil.mp this with ⟨_, h2⟩
  simpa using h2

/-- The first character of `a ++ b` is the first character of a nonempty `a`. -/
theorem startsWithSlash_append (a b : String) (h : a ≠ "") :
    startsWithSlash (a ++ b) = startsWithSlash a := by
  unfold startsWithSlash
  rw [String.data_append]
  cases ha : a.data with
  | nil => exact absurd (strOfDataEq a "" (by simpa using ha)) h
  | cons c cs => simp

/-- The last character of `a ++ b` is the last character of a nonempty `b`. -/
theorem endsWithSlash_append (a b : String) (h : b ≠ "") :
    endsWithSlash (a ++ b) = endsWithSlash b := by
  unfold endsWithSlash
  rw [String.data_append]
  have hb : b.data ≠ [] := by
    intro hn
    exact h (strOfDataEq b "" (by simpa using hn))
  rw [List.getLast?_append]
  cases hbl : b.data.getLast? with
  | none => exact absurd (List.getLast?_eq_none_iff.mp hbl) hb
  | some c => simp

/-- When no component forces a special case, `os.path.join` is
slash-separated concatenation. -/
theorem pathJoin_normal (a b : String) (hb : startsWithSlash b = false)
    (ha : a ≠ "") (ha2 : endsWithSlash a = false) : pathJoin a b = a ++ "/" ++ b := by
  unfold pathJoin
  simp [hb, ha, ha2]

/-- Membership after inserting one key. -/
theorem mem_insertKey (acc : List String) (k x : String) :
    x ∈ insertKey acc k ↔ x ∈ acc ∨ x = k := by
  unfold insertKey
  by_cases h : acc.contains k
  · have hk : k ∈ acc := by simpa using h
    simp only [h, if_true]
    constructor
    · exact fun hx => Or.inl hx
    · rintro (hx | rfl)
      · exact hx
      · exact hk
  · simp only [h, if_false]
    simp

/-- Membership after folding a record's keys into the column list. -/
theorem mem_foldl_insertKey (r : List String) (acc : List String) (x : String) :
    x ∈ r.foldl insertKey acc ↔ x ∈ acc ∨ x ∈ r := by
  induction r generalizing acc with
  | nil => simp
  | cons k ks ih =>
    rw [List.foldl_cons, ih, mem_insertKey]
    simp only [List.mem_cons]
    tauto

/-- Membership in the accumulated column union. -/
theorem mem_unionKeys_aux (records : List (List (String × JsonVal))) (acc : List String)
    (x : String) :
    x ∈ records.foldl (fun acc r => (recordKeys r).foldl insertKey acc) acc ↔
      x ∈ acc ∨ ∃ r ∈ records, x ∈ recordKeys r := by
  induction records generalizing acc with
  | nil => simp
  | cons r rs ih =>
    rw [List.foldl_cons, ih, mem_foldl_insertKey]
    simp only [List.mem_cons]
    constructor
    · rintro ((hx | hx) | ⟨r', hr', hx⟩)
      · exact Or.inl hx
      · exact Or.inr ⟨r, Or.inl rfl, hx⟩
      · exact Or.inr ⟨r', Or.inr hr', hx⟩
    · rintro (hx | ⟨r', (rfl | hr'), hx⟩)
      · exact Or.inl (Or.inl hx)
      · exact Or.inl (Or.inr hx)
      · exact Or.inr ⟨r', hr', hx⟩

/-- A column name appears in `unionKeys` exactly when some record carries it. -/
theorem mem_unionKeys (records : List (List (String × JsonVal))) (x : String) :
    x ∈ unionKeys records ↔ ∃ r ∈ records, x ∈ recordKeys r := by
  unfold unionKeys
  rw [mem_unionKeys_aux]
  simp

/-- Decoding a list that is literally a list of dicts yields those dicts. -/
theorem toRecords_map_obj (l : List (List (String × JsonVal))) :
    toRecords (l.map JsonVal.obj) = some l := by
  induction l with
  | nil => rfl
  | cons r rs ih => simp [toRecords, toRecord, ih]

/-! ## Claim theorems -/

/-- Claim C3: for every response whose content-type indicates CSV (starts
with `text/csv`) or whose content-disposition indicates an attachment, and
whose status passed `raise_for_status`, `download_csv_data` stores exactly
`response.text` — the body verbatim, with no transformation — at the
deterministic path, and returns that path. -/
theorem download_csv_passthrough (r : FetchResponse)
    (e s en : String) (y : Nat) (inst sym bd : String)
    (hok : r.statusOk = true)
    (hcsv : (strStarts r.contentType "text/csv" || strStarts r.contentDisposition "attachment") = true) :
    download_csv_data (.response r) e s en y inst sym bd =
      ⟨some (build_filepath bd y sym inst e s en),
        [(build_filepath bd y sym inst e s en, r.bodyText)]⟩ := by
  simp [download_csv_data, hok, hcsv]

/-- Witness for C3 at a concrete CSV response. -/
theorem download_csv_passthrough_witness :
    csvOkResponse.statusOk = true ∧
    (strStarts csvOkResponse.contentType "text/csv" ||
      strStarts csvOkResponse.contentDisposition "attachment") = true ∧
    download_csv_data (.response csvOkResponse) "25-Jan-2024" "26-11-2023" "26-01-2024"
        2024 "FUTIDX" "NIFTY" "nse_data" =
      ⟨some (build_filepath "nse_data" 2024 "NIFTY" "FUTIDX" "25-Jan-2024" "26-11-2023" "26-01-2024"),
        [(build_filepath "nse_data" 2024 "NIFTY" "FUTIDX" "25-Jan-2024" "26-11-2023" "26-01-2024",
          csvOkResponse.bodyText)]⟩ :=
  ⟨rfl, by decide,
    download_csv_passthrough csvOkResponse "25-Jan-2024" "26-11-2023" "26-01-2024"
      2024 "FUTIDX" "NIFTY" "nse_data" rfl (by decide)⟩

/-- Claim C4, counterexample: `31-Dec-9999` is a valid `DD-MMM-YYYY` expiry
string — `strptime` parses it to the date (9999, 12, 31) — yet
`calculate_date_range` returns the failure sentinel, because
`expiry + timedelta(days=1)` leaves the `datetime`-representable range and
the resulting `OverflowError` is caught by the same `except` as a parse
error.  So the claim "for every valid expiry date string the window is
returned" fails at this input. -/
theorem calculate_date_range_overflow_cex :
    parseExpiry "31-Dec-9999" = some (9999, 12, 31) ∧
    calculate_date_range "31-Dec-9999" = none := by
  decide

/-- Claim C4 (amended): for every expiry string that parses in `DD-MMM-YYYY`
form and whose 60-day lookback and 1-day lookahead both stay inside the
`datetime`-representable range, `calculate_date_range` returns
start = expiry − 60 days and end = expiry + 1 day, both formatted
`DD-MM-YYYY`, together with the expiry's year; every malformed input yields
the failure sentinel (never an uncaught exception).  In particular
`25-Jan-2024` yields `26-11-2023` and `26-01-2024`. -/
theorem calculate_date_range_window :
    (∀ (str : String) (y m d : Nat), parseExpiry str = some (y, m, d) →
      minOrdinal + 60 ≤ toDays y m d → toDays y m d + 1 ≤ maxOrdinal →
      calculate_date_range str =
        some (formatDMY (ofDays (toDays y m d - 60)),
          formatDMY (ofDays (toDays y m d + 1)), y))
    ∧ (∀ str : String, parseExpiry str = none → calculate_date_range str = none)
    ∧ calculate_date_range "25-Jan-2024" = some ("26-11-2023", "26-01-2024", 2024) := by
  refine ⟨?_, ?_, by decide⟩
  · intro str y m d hp h1 h2
    simp only [calculate_date_range, hp]
    rw [if_neg (by omega), if_neg (by omega)]
  · intro str hp
    simp [calculate_date_range, hp]

/-- Witness for C4 at the concrete expiry `25-Jan-2024`. -/
theorem calculate_date_range_window_witness :
    parseExpiry "25-Jan-2024" = some (2024, 1, 25) ∧
    minOrdinal + 60 ≤ toDays 2024 1 25 ∧
    toDays 2024 1 25 + 1 ≤ maxOrdinal ∧
    calculate_date_range "25-Jan-2024" =
      some (formatDMY (ofDays (toDays 2024 1 25 - 60)),
        formatDMY (ofDays (toDays 2024 1 25 + 1)), 2024) :=
  ⟨by decide, by decide, by decide,
    calculate_date_range_window.1 "25-Jan-2024" 2024 1 25 (by decide) (by decide) (by decide)⟩

/-- Claim C5: `get_expiry_dates` returns the date list found under the first
present key among `expiryDt`, `expiresDts`, `expiryDates`, checked in that
fixed priority order (note a present key holding the empty list also results
in the empty list, which coincides with that value); and it returns the empty
list — raising nothing to its caller, since the whole body is inside a
`try`/`except` returning `[]` — when none of those keys is present or when
the request fails (connection error, timeout, non-2xx status, or an
undecodable body). -/
theorem get_expiry_dates_first_key :
    (∀ (data : List (String × JsonVal)) (l : List JsonVal),
      firstExpiryKey data = some (JsonVal.arr l) →
      get_expiry_dates (.payload data) = JsonVal.arr l)
    ∧ (∀ data : List (String × JsonVal),
      firstExpiryKey data = none → get_expiry_dates (.payload data) = JsonVal.arr [])
    ∧ get_expiry_dates .failure = JsonVal.arr [] := by
  refine ⟨?_, ?_, rfl⟩
  · intro data l h
    simp only [get_expiry_dates, h]
    cases l with
    | nil => simp [truthy]
    | cons x xs => simp [truthy]
  · intro data h
    simp [get_expiry_dates, h]

/-- Witness for C5: a payload carrying the list under `expiryDt`. -/
theorem get_expiry_dates_first_key_witness :
    firstExpiryKey [("expiryDt", JsonVal.arr [JsonVal.str "25-Jan-2024"])] =
      some (JsonVal.arr [JsonVal.str "25-Jan-2024"]) ∧
    get_expiry_dates (.payload [("expiryDt", JsonVal.arr [JsonVal.str "25-Jan-2024"])]) =
      JsonVal.arr [JsonVal.str "25-Jan-2024"] :=
  ⟨rfl, get_expiry_dates_first_key.1 _ _ rfl⟩

/-- Claim C7: a transport-level failure, a non-2xx status (e.g. 500, which
makes `raise_for_status` raise), a JSON body whose `data` key holds an empty
list, and a body that is not decodable JSON all make `download_csv_data`
return the failure sentinel, with no file written. -/
theorem download_failure_modes :
    (∀ (e s en : String) (y : Nat) (inst sym bd : String),
      download_csv_data .transportError e s en y inst sym bd = ⟨none, []⟩)
    ∧ (∀ (r : FetchResponse) (e s en : String) (y : Nat) (inst sym bd : String),
      r.statusOk = false →
      download_csv_data (.response r) e s en y inst sym bd = ⟨none, []⟩)
    ∧ (∀ (r : FetchResponse) (kvs : List (String × JsonVal))
        (e s en : String) (y : Nat) (inst sym bd : String),
      r.statusOk = true →
      (strStarts r.contentType "text/csv" || strStarts r.contentDisposition "attachment") = false →
      r.bodyJson = some (JsonVal.obj kvs) →
      jlookup "data" kvs = some (JsonVal.arr []) →
      download_csv_data (.response r) e s en y inst sym bd = ⟨none, []⟩)
    ∧ (∀ (r : FetchResponse) (e s en : String) (y : Nat) (inst sym bd : String),
      r.statusOk = true →
      (strStarts r.contentType "text/csv" || strStarts r.contentDisposition "attachment") = false →
      r.bodyJson = none →
      download_csv_data (.response r) e s en y inst sym bd = ⟨none, []⟩) := by
  refine ⟨fun _ _ _ _ _ _ _ => rfl, ?_, ?_, ?_⟩
  · intro r e s en y inst sym bd h
    simp [download_csv_data, h]
  · intro r kvs e s en y inst sym bd hok hcsv hjson hdata
    simp [download_csv_data, hok, hcsv, hjson, hdata, List.isEmpty]
  · intro r e s en y inst sym bd hok hcsv hjson
    simp [download_csv_data, hok, hcsv, hjson]

/-- Witness for C7: a 500-status response fails with nothing written. -/
theorem download_failure_modes_witness :
    (⟨false, "text/html", "", "server error", none⟩ : FetchResponse).statusOk = false ∧
    download_csv_data (.response ⟨false, "text/html", "", "server error", none⟩)
      "25-Jan-2024" "26-11-2023" "26-01-2024" 2024 "FUTIDX" "NIFTY" "nse_data" = ⟨none, []⟩ :=
  ⟨rfl, download_failure_modes.2.1 ⟨false, "text/html", "", "server error", none⟩
    "25-Jan-2024" "26-11-2023" "26-01-2024" 2024 "FUTIDX" "NIFTY" "nse_data" rfl⟩

/-- Claim C8, counterexample: when the bootstrap pages load but the browser's
cookie jar is empty, `initialize_session` still returns success — the
`for cookie in selenium_cookies` loop simply transfers nothing and the
function falls through to `return True`.  The claim that an empty cookie jar
yields a Failure signal, and that success is never reported with zero
cookies transferred, is therefore false on the code. -/
theorem initialize_session_empty_jar :
    initialize_session (BrowserOutcome.ok []) = (true, []) := rfl

/-- Claim C8 (amended): session bootstrap yields a Failure signal on any
navigation error or readiness timeout (the caller then aborts the run), and
otherwise reports success with exactly the browser's cookies transferred —
including the case of zero cookies: an empty jar does not cause failure. -/
theorem initialize_session_outcomes :
    (∀ cookies : List (String × String),
      initialize_session (BrowserOutcome.ok cookies) = (true, cookies))
    ∧ initialize_session BrowserOutcome.navError = (false, []) :=
  ⟨fun _ => rfl, rfl⟩

/-- Claim C2: for every non-CSV response whose JSON body carries a `data` key
holding a non-empty list of keyed records, `download_csv_data` converts the
records into tabular form — one row per record, rows in input order, columns
the union of the record keys in encountered order — and writes exactly that
table's CSV serialisation to the deterministic path.  In particular the
two-record `FH_TIMESTAMP` / `x` example yields a two-row table with columns
`FH_TIMESTAMP`, `x` and a successful return. -/
theorem download_json_records_tabular :
    (∀ (r : FetchResponse) (kvs : List (String × JsonVal))
        (records : List (List (String × JsonVal)))
        (e s en : String) (y : Nat) (inst sym bd : String),
      r.statusOk = true →
      (strStarts r.contentType "text/csv" || strStarts r.contentDisposition "attachment") = false →
      r.bodyJson = some (JsonVal.obj kvs) →
      jlookup "data" kvs = some (JsonVal.arr (records.map JsonVal.obj)) →
      records ≠ [] →
      ((download_csv_data (.response r) e s en y inst sym bd).writes =
          [(build_filepath bd y sym inst e s en, frameToCsv (makeFrame records))]
        ∧ (makeFrame records).rows = records
        ∧ (makeFrame records).columns = unionKeys records
        ∧ ∀ c : String, c ∈ unionKeys records ↔ ∃ rec ∈ records, c ∈ recordKeys rec))
    ∧ (makeFrame [[("FH_TIMESTAMP", JsonVal.str "01-Jan-2024"), ("x", JsonVal.num 1)],
        [("FH_TIMESTAMP", JsonVal.str "02-Jan-2024"), ("x", JsonVal.num 2)]]).columns =
        ["FH_TIMESTAMP", "x"]
    ∧ (makeFrame [[("FH_TIMESTAMP", JsonVal.str "01-Jan-2024"), ("x", JsonVal.num 1)],
        [("FH_TIMESTAMP", JsonVal.str "02-Jan-2024"), ("x", JsonVal.num 2)]]).rows.length = 2
    ∧ (download_csv_data
        (.response ⟨true, "application/json", "", "raw json body",
          some (JsonVal.obj [("data", JsonVal.arr
            [JsonVal.obj [("FH_TIMESTAMP", JsonVal.str "01-Jan-2024"), ("x", JsonVal.num 1)],
             JsonVal.obj [("FH_TIMESTAMP", JsonVal.str "02-Jan-2024"), ("x", JsonVal.num 2)]])])⟩)
        "25-Jan-2024" "26-11-2023" "26-01-2024" 2024 "FUTIDX" "NIFTY" "nse_data").ret.isSome
        = true := by
  refine ⟨?_, by decide, by decide, by decide⟩
  intro r kvs records e s en y inst sym bd hok hcsv hjson hdata hne
  obtain ⟨rec0, rest, rfl⟩ := List.exists_cons_of_ne_nil hne
  have hrec := toRecords_map_obj (rec0 :: rest)
  simp only [List.map_cons] at hrec hdata
  refine ⟨?_, rfl, rfl, fun c => mem_unionKeys _ c⟩
  simp only [download_csv_data, hok, hcsv, hjson, hdata, hrec, List.isEmpty, Bool.false_eq_true,
    if_false, if_true]
  split <;> rfl

/-- Witness for C2 at the spec's two-record example. -/
theorem download_json_records_tabular_witness :
    jsonNoFHResponse.statusOk = true ∧
    (strStarts jsonNoFHResponse.contentType "text/csv" ||
      strStarts jsonNoFHResponse.contentDisposition "attachment") = false ∧
    jsonNoFHResponse.bodyJson =
      some (JsonVal.obj [("data", JsonVal.arr ([[("x", JsonVal.num 1)]].map JsonVal.obj))]) ∧
    jlookup "data" [("data", JsonVal.arr ([[("x", JsonVal.num 1)]].map JsonVal.obj))] =
      some (JsonVal.arr ([[("x", JsonVal.num 1)]].map JsonVal.obj)) ∧
    ([[("x", JsonVal.num 1)]] : List (List (String × JsonVal))) ≠ [] ∧
    ((download_csv_data (.response jsonNoFHResponse)
        "25-Jan-2024" "26-11-2023" "26-01-2024" 2024 "FUTIDX" "NIFTY" "nse_data").writes =
      [(build_filepath "nse_data" 2024 "NIFTY" "FUTIDX" "25-Jan-2024" "26-11-2023" "26-01-2024",
        frameToCsv (makeFrame [[("x", JsonVal.num 1)]]))]
      ∧ (makeFrame [[("x", JsonVal.num 1)]]).rows = [[("x", JsonVal.num 1)]]
      ∧ (makeFrame [[("x", JsonVal.num 1)]]).columns = unionKeys [[("x", JsonVal.num 1)]]
      ∧ ∀ c : String, c ∈ unionKeys [[("x", JsonVal.num 1)]] ↔
          ∃ rec ∈ ([[("x", JsonVal.num 1)]] : List (List (String × JsonVal))), c ∈ recordKeys rec) :=
  ⟨rfl, by decide, rfl, rfl, by simp,
    download_json_records_tabular.1 jsonNoFHResponse
      [("data", JsonVal.arr ([[("x", JsonVal.num 1)]].map JsonVal.obj))]
      [[("x", JsonVal.num 1)]]
      "25-Jan-2024" "26-11-2023" "26-01-2024" 2024 "FUTIDX" "NIFTY" "nse_data"
      rfl (by decide) rfl rfl (by simp)⟩

/-- Claim C10: on a non-CSV response whose JSON `data` list is non-empty but
none of whose records carries the key `FH_TIMESTAMP`, the converted table is
written to the deterministic path first (`df.to_csv`), and only afterwards
does the `df['FH_TIMESTAMP'].min()` log-line access raise the `KeyError`
that makes the call return the failure sentinel — so a Failure result does
not imply no file was created.  The second conjunct runs a whole
`process_year` on such a response: the run returns `False` (success count 0)
while its trace contains one file write, so the success count is strictly
below the number of files on disk. -/
theorem download_write_then_failure :
    (∀ (r : FetchResponse) (kvs : List (String × JsonVal))
        (records : List (List (String × JsonVal)))
        (e s en : String) (y : Nat) (inst sym bd : String),
      r.statusOk = true →
      (strStarts r.contentType "text/csv" || strStarts r.contentDisposition "attachment") = false →
      r.bodyJson = some (JsonVal.obj kvs) →
      jlookup "data" kvs = some (JsonVal.arr (records.map JsonVal.obj)) →
      records ≠ [] →
      (∀ rec ∈ records, "FH_TIMESTAMP" ∉ recordKeys rec) →
      download_csv_data (.response r) e s en y inst sym bd =
        ⟨none, [(build_filepath bd y sym inst e s en, frameToCsv (makeFrame records))]⟩)
    ∧ process_year (.ok [("k", "v")]) ["25-Jan-2024"]
        (fun _ => .response jsonNoFHResponse) "NIFTY" "FUTIDX" false =
      (false,
        [Event.fetchData "25-Jan-2024",
         Event.fileWrite
           "nse_data/2024/NIFTY/FUTIDX/NIFTY_FUTIDX_25_Jan_2024_26_11_2023_to_26_01_2024.csv"
           "x\n1\n",
         Event.sleep 2]) := by
  constructor
  · intro r kvs records e s en y inst sym bd hok hcsv hjson hdata hne hnofh
    have hcol : "FH_TIMESTAMP" ∉ unionKeys records := by
      rw [mem_unionKeys]
      rintro ⟨rec, hrec, hk⟩
      exact hnofh rec hrec hk
    obtain ⟨rec0, rest, rfl⟩ := List.exists_cons_of_ne_nil hne
    have hrec := toRecords_map_obj (rec0 :: rest)
    simp only [List.map_cons] at hrec hdata
    simp [download_csv_data, hok, hcsv, hjson, hdata, hrec, List.isEmpty]
    exact hcol
  · rfl

/-- Witness for C10 at the one-record `x`-only payload. -/
theorem download_write_then_failure_witness :
    jsonNoFHResponse.statusOk = true ∧
    (strStarts jsonNoFHResponse.contentType "text/csv" ||
      strStarts jsonNoFHResponse.contentDisposition "attachment") = false ∧
    (∀ rec ∈ ([[("x", JsonVal.num 1)]] : List (List (String × JsonVal))),
      "FH_TIMESTAMP" ∉ recordKeys rec) ∧
    download_csv_data (.response jsonNoFHResponse)
        "25-Jan-2024" "26-11-2023" "26-01-2024" 2024 "FUTIDX" "NIFTY" "nse_data" =
      ⟨none, [(build_filepath "nse_data" 2024 "NIFTY" "FUTIDX"
          "25-Jan-2024" "26-11-2023" "26-01-2024",
        frameToCsv (makeFrame [[("x", JsonVal.num 1)]]))]⟩ :=
  ⟨rfl, by decide, by decide,
    download_write_then_failure.1 jsonNoFHResponse
      [("data", JsonVal.arr ([[("x", JsonVal.num 1)]].map JsonVal.obj))]
      [[("x", JsonVal.num 1)]]
      "25-Jan-2024" "26-11-2023" "26-01-2024" 2024 "FUTIDX" "NIFTY" "nse_data"
      rfl (by decide) rfl rfl (by simp) (by decide)⟩

/-- Appending anything to a nonempty string keeps it nonempty. -/
theorem str_append_ne_left (a b : String) (h : a ≠ "") : a ++ b ≠ "" := by
  intro hab
  apply h
  apply strOfDataEq
  have := congrArg String.data hab
  rw [String.data_append] at this
  rcases List.append_eq_nil.mp this with ⟨h1, _⟩
  simpa using h1

/-- Claim C6: the stored file's path is fully determined by
`(baseDir, year, symbol, instrument, expiry, start, end)` as
`{baseDir}/{year}/{symbol}/{instrument}/{symbol}_{instrument}_{expiry}_{start}_to_{end}.csv`
with dashes replaced by underscores in the three date components (the
hypotheses record that no component is empty or carries a boundary slash, so
every `os.path.join` takes its ordinary branch); and at the spec's concrete
tuple it equals
`nse_data/2024/NIFTY/FUTIDX/NIFTY_FUTIDX_25_JAN_2024_26_11_2023_to_26_01_2024.csv`. -/
theorem build_filepath_formula :
    (∀ (bd : String) (y : Nat) (sym inst e s en : String),
      bd ≠ "" → endsWithSlash bd = false →
      toString y ≠ "" → startsWithSlash (toString y) = false → endsWithSlash (toString y) = false →
      sym ≠ "" → startsWithSlash sym = false → endsWithSlash sym = false →
      inst ≠ "" → startsWithSlash inst = false → endsWithSlash inst = false →
      build_filepath bd y sym inst e s en =
        bd ++ "/" ++ toString y ++ "/" ++ sym ++ "/" ++ inst ++ "/" ++ sym ++ "_" ++ inst ++ "_" ++
          replaceDashUnderscore e ++ "_" ++ replaceDashUnderscore s ++ "_to_" ++
          replaceDashUnderscore en ++ ".csv")
    ∧ build_filepath "nse_data" 2024 "NIFTY" "FUTIDX" "25-JAN-2024" "26-11-2023" "26-01-2024" =
        "nse_data/2024/NIFTY/FUTIDX/NIFTY_FUTIDX_25_JAN_2024_26_11_2023_to_26_01_2024.csv" := by
  refine ⟨?_, by decide⟩
  intro bd y sym inst e s en hbd1 hbd2 hy1 hy2 hy3 hsym1 hsym2 hsym3 hin1 hin2 hin3
  have j1 : pathJoin bd (toString y) = bd ++ "/" ++ toString y :=
    pathJoin_normal bd (toString y) hy2 hbd1 hbd2
  have ha1ne : bd ++ "/" ++ toString y ≠ "" := str_append_ne_right (bd ++ "/") (toString y) hy1
  have ha1end : endsWithSlash (bd ++ "/" ++ toString y) = false := by
    rw [endsWithSlash_append (bd ++ "/") (toString y) hy1]
    exact hy3
  have j2 : pathJoin (bd ++ "/" ++ toString y) sym = bd ++ "/" ++ toString y ++ "/" ++ sym :=
    pathJoin_normal _ sym hsym2 ha1ne ha1end
  have ha2ne : bd ++ "/" ++ toString y ++ "/" ++ sym ≠ "" :=
    str_append_ne_right _ sym hsym1
  have ha2end : endsWithSlash (bd ++ "/" ++ toString y ++ "/" ++ sym) = false := by
    rw [endsWithSlash_append _ sym hsym1]
    exact hsym3
  have j3 : pathJoin (bd ++ "/" ++ toString y ++ "/" ++ sym) inst =
      bd ++ "/" ++ toString y ++ "/" ++ sym ++ "/" ++ inst :=
    pathJoin_normal _ inst hin2 ha2ne ha2end
  have ha3ne : bd ++ "/" ++ toString y ++ "/" ++ sym ++ "/" ++ inst ≠ "" :=
    str_append_ne_right _ inst hin1
  have ha3end : endsWithSlash (bd ++ "/" ++ toString y ++ "/" ++ sym ++ "/" ++ inst) = false := by
    rw [endsWithSlash_append _ inst hin1]
    exact hin3
  have n1 : sym ++ "_" ≠ "" := str_append_ne_right sym "_" (by decide)
  have n2 : sym ++ "_" ++ inst ≠ "" := str_append_ne_left _ inst n1
  have n3 : sym ++ "_" ++ inst ++ "_" ≠ "" := str_append_ne_right _ "_" (by decide)
  have n4 : sym ++ "_" ++ inst ++ "_" ++ replaceDashUnderscore e ≠ "" :=
    str_append_ne_left _ _ n3
  have n5 : sym ++ "_" ++ inst ++ "_" ++ replaceDashUnderscore e ++ "_" ≠ "" :=
    str_append_ne_right _ "_" (by decide)
  have n6 : sym ++ "_" ++ inst ++ "_" ++ replaceDashUnderscore e ++ "_" ++
      replaceDashUnderscore s ≠ "" := str_append_ne_left _ _ n5
  have n7 : sym ++ "_" ++ inst ++ "_" ++ replaceDashUnderscore e ++ "_" ++
      replaceDashUnderscore s ++ "_to_" ≠ "" := str_append_ne_right _ "_to_" (by decide)
  have n8 : sym ++ "_" ++ inst ++ "_" ++ replaceDashUnderscore e ++ "_" ++
      replaceDashUnderscore s ++ "_to_" ++ replaceDashUnderscore en ≠ "" :=
    str_append_ne_left _ _ n7
  have hfn : startsWithSlash (csv_filename sym inst e s en) = false := by
    unfold csv_filename
    rw [startsWithSlash_append _ ".csv" n8, startsWithSlash_append _ _ n7,
      startsWithSlash_append _ _ n6, startsWithSlash_append _ _ n5,
      startsWithSlash_append _ _ n4, startsWithSlash_append _ _ n3,
      startsWithSlash_append _ _ n2, startsWithSlash_append _ _ n1,
      startsWithSlash_append _ _ hsym1]
    exact hsym2
  have j4 : pathJoin (bd ++ "/" ++ toString y ++ "/" ++ sym ++ "/" ++ inst)
      (csv_filename sym inst e s en) =
      bd ++ "/" ++ toString y ++ "/" ++ sym ++ "/" ++ inst ++ "/" ++
        csv_filename sym inst e s en :=
    pathJoin_normal _ _ hfn ha3ne ha3end
  rw [build_filepath, folderPath, j1, j2, j3, j4, csv_filename]
  apply strOfDataEq
  simp [String.data_append, List.append_assoc]

/-- Witness for C6 at the spec's concrete tuple. -/
theorem build_filepath_formula_witness :
    ("nse_data" : String) ≠ "" ∧ endsWithSlash "nse_data" = false ∧
    toString (2024 : Nat) ≠ "" ∧ startsWithSlash (toString (2024 : Nat)) = false ∧
    endsWithSlash (toString (2024 : Nat)) = false ∧
    ("NIFTY" : String) ≠ "" ∧ startsWithSlash "NIFTY" = false ∧ endsWithSlash "NIFTY" = false ∧
    ("FUTIDX" : String) ≠ "" ∧ startsWithSlash "FUTIDX" = false ∧
    endsWithSlash "FUTIDX" = false ∧
    build_filepath "nse_data" 2024 "NIFTY" "FUTIDX" "25-JAN-2024" "26-11-2023" "26-01-2024" =
      "nse_data" ++ "/" ++ toString (2024 : Nat) ++ "/" ++ "NIFTY" ++ "/" ++ "FUTIDX" ++ "/" ++
        "NIFTY" ++ "_" ++ "FUTIDX" ++ "_" ++ replaceDashUnderscore "25-JAN-2024" ++ "_" ++
        replaceDashUnderscore "26-11-2023" ++ "_to_" ++
        replaceDashUnderscore "26-01-2024" ++ ".csv" :=
  ⟨by decide, by decide, by decide, by decide, by decide, by decide, by decide, by decide,
    by decide, by decide, by decide,
    build_filepath_formula.1 "nse_data" 2024 "NIFTY" "FUTIDX" "25-JAN-2024" "26-11-2023"
      "26-01-2024" (by decide) (by decide) (by decide) (by decide) (by decide) (by decide)
      (by decide) (by decide) (by decide) (by decide) (by decide)⟩

/-- Claim C1: `process_year` returns `false` when session initialisation
fails or the resolved expiry list is empty, and otherwise returns `true` if
and only if at least one expiry of the processed list (in resolver order,
truncated to one in testing mode) was successfully fetched and stored — the
loop body returned a file path.  The remaining conjuncts run the end-to-end
instance: three resolved expiries of which exactly one fails at the fetch
stage give a `true` return, a success tally of 2, and exactly 2 file writes
on disk. -/
theorem process_year_success_iff :
    (∀ (browser : BrowserOutcome) (expiries : List String)
        (responses : String → FetchOutcome) (symbol instrument : String) (test_single : Bool),
      (process_year browser expiries responses symbol instrument test_single).fst = true ↔
        ((initialize_session browser).fst = true ∧ expiries ≠ [] ∧
          ∃ e ∈ usedExpiries expiries test_single,
            (processExpiry (responses e) e symbol instrument "nse_data").fst = true))
    ∧ (process_year (.ok [("nsit", "tok")]) ["25-Jan-2024", "26-Feb-2024", "26-Mar-2024"]
        demoResponses "NIFTY" "FUTIDX" false).fst = true
    ∧ ["25-Jan-2024", "26-Feb-2024", "26-Mar-2024"].countP
        (fun e => (processExpiry (demoResponses e) e "NIFTY" "FUTIDX" "nse_data").fst) = 2
    ∧ (process_year (.ok [("nsit", "tok")]) ["25-Jan-2024", "26-Feb-2024", "26-Mar-2024"]
        demoResponses "NIFTY" "FUTIDX" false).snd.countP isFileWrite = 2 := by
  refine ⟨?_, by decide, by decide, by decide⟩
  intro browser expiries responses symbol instrument test_single
  cases browser with
  | navError => simp [process_year, initialize_session]
  | ok cookies =>
    cases expiries with
    | nil => simp [process_year, initialize_session, List.isEmpty]
    | cons e0 rest =>
      simp only [process_year, initialize_session, List.isEmpty, if_true, if_false,
        Bool.false_eq_true, decide_eq_true_iff]
      rw [List.countP_pos_iff]
      simp

/-- Claim C9, counterexample: an iteration whose expiry fails window
computation (`calculate_date_range` returns the sentinel) hits `continue`,
which jumps past the `time.sleep(2)` at the bottom of the loop — so this run
over a nonempty expiry list performs an iteration but its trace contains no
sleep at all, refuting "every loop iteration, including those skipped at the
window-computation stage, ends with the fixed sleep". -/
theorem process_year_parse_skip_no_sleep :
    (process_year (.ok [("c", "v")]) ["not-a-date"]
        (fun _ => .transportError) "NIFTY" "FUTIDX" false).snd.countP isSleepEvent = 0 ∧
    (usedExpiries ["not-a-date"] false).length = 1 ∧
    (initialize_session (.ok [("c", "v")])).fst = true := by
  decide

/-- Claim C9 (amended): in every `process_year` run that passes session
initialisation with a nonempty expiry list, the trace is the concatenation of
the per-expiry iteration traces, in resolver order; an iteration skipped at
the window-computation stage contributes no events — in particular no sleep —
while every iteration that reaches the fetch stage (whether or not the fetch
succeeds) starts with its fetch request and ends with the fixed
`sleep 2` before the next iteration begins, so consecutive fetch requests
are separated by that delay. -/
theorem process_year_sleep_structure :
    ∀ (browser : BrowserOutcome) (expiries : List String)
      (responses : String → FetchOutcome) (symbol instrument : String) (test_single : Bool),
      (initialize_session browser).fst = true → expiries ≠ [] →
      ((process_year browser expiries responses symbol instrument test_single).snd =
          concatAll ((usedExpiries expiries test_single).map
            (fun e => (processExpiry (responses e) e symbol instrument "nse_data").snd))
        ∧ ∀ e ∈ usedExpiries expiries test_single,
            (calculate_date_range e = none →
              (processExpiry (responses e) e symbol instrument "nse_data").snd = [])
            ∧ (calculate_date_range e ≠ none →
                (processExpiry (responses e) e symbol instrument "nse_data").snd.head? =
                    some (Event.fetchData e)
                  ∧ (processExpiry (responses e) e symbol instrument "nse_data").snd.getLast? =
                    some (Event.sleep 2))) := by
  intro browser expiries responses symbol instrument test_single hinit hne
  constructor
  · obtain ⟨e0, rest, rfl⟩ := List.exists_cons_of_ne_nil hne
    simp [process_year, hinit, List.isEmpty]
  · intro e _
    constructor
    · intro hnone
      simp [processExpiry, hnone]
    · intro hsome
      obtain ⟨w, hw⟩ := Option.ne_none_iff_exists'.mp hsome
      obtain ⟨ws, we, wy⟩ := w
      refine ⟨by simp [processExpiry, hw], ?_⟩
      simp only [processExpiry, hw]
      rw [← List.cons_append]
      exact List.getLast?_concat _

/-- Witness for C9 at a run with one well-formed expiry whose fetch fails. -/
theorem process_year_sleep_structure_witness :
    (initialize_session (.ok [("w", "1")])).fst = true ∧
    (["25-Jan-2024"] : List String) ≠ [] ∧
    ((process_year (.ok [("w", "1")]) ["25-Jan-2024"]
        (fun _ => .transportError) "NIFTY" "FUTIDX" false).snd =
        concatAll ((usedExpiries ["25-Jan-2024"] false).map
          (fun e => (processExpiry ((fun _ => FetchOutcome.transportError) e) e
            "NIFTY" "FUTIDX" "nse_data").snd))
      ∧ ∀ e ∈ usedExpiries ["25-Jan-2024"] false,
          (calculate_date_range e = none →
            (processExpiry ((fun _ => FetchOutcome.transportError) e) e
              "NIFTY" "FUTIDX" "nse_data").snd = [])
          ∧ (calculate_date_range e ≠ none →
              (processExpiry ((fun _ => FetchOutcome.transportError) e) e
                "NIFTY" "FUTIDX" "nse_data").snd.head? = some (Event.fetchData e)
                ∧ (processExpiry ((fun _ => FetchOutcome.transportError) e) e
                  "NIFTY" "FUTIDX" "nse_data").snd.getLast? = some (Event.sleep 2))) :=
  ⟨rfl, by decide,
    process_year_sleep_structure (.ok [("w", "1")]) ["25-Jan-2024"]
      (fun _ => FetchOutcome.transportError) "NIFTY" "FUTIDX" false rfl (by decide)⟩
